import Mathlib

/-!
Shallow embedding of the security-scanning scripts of this repository
(scripts/security/docker-compose-security.py,
scripts/security/github-actions-security.py,
scripts/security/security-quality-gate.py, and the severity-mapping
functions of the three report generators), together with theorems that
settle the specification claims about them.

Python strings are modelled by `String`; Python substring containment
(`pat in s`) by `strContains`, defined over the character list; Python
dict lookups by `Option`-valued fields or association-list lookups;
exceptions by `Except`.
-/

namespace SecScan

/-- Python `p in s` prefix step: does `p` occur at the head of `h`? -/
def takesAtHead : List Char → List Char → Bool
  | [], _ => true
  | _ :: _, [] => false
  | p :: ps, c :: cs => p == c && takesAtHead ps cs

/-- Does `pat` occur contiguously anywhere in `hay`? -/
def containsSeg (hay pat : List Char) : Bool :=
  match hay with
  | [] => pat.isEmpty
  | _ :: rest => takesAtHead pat hay || containsSeg rest pat

/-- Python `pat in s` (substring containment). -/
def strContains (s pat : String) : Bool :=
  containsSeg s.toList pat.toList

/-- Python `s.lower()` (ASCII, character by character). -/
def strLower (s : String) : String :=
  String.mk (s.toList.map Char.toLower)

/-- Python `s.upper()` (ASCII, character by character). -/
def strUpper (s : String) : String :=
  String.mk (s.toList.map Char.toUpper)

/-- Python `s.startswith(pre)`. -/
def strStartsWith (s pre : String) : Bool :=
  takesAtHead pre.toList s.toList

/-- Python `s.split(sep)` on a single-character separator, over char lists. -/
def splitChar (sep : Char) : List Char → List (List Char)
  | [] => [[]]
  | c :: cs =>
    match splitChar sep cs with
    | [] => if c == sep then [[], []] else [[c]]
    | h :: t => if c == sep then [] :: h :: t else (c :: h) :: t

/-- Python `s.split(sep)[1]` (empty when absent; the caller guards on `in`). -/
def splitSecond (sep : Char) (s : String) : String :=
  String.mk ((splitChar sep s.toList).getD 1 [])

/-! ## docker-compose-security.py : data model of a compose service

A service configuration node, holding exactly the keys the scanner reads.
A missing key is `none` / the Python `.get` default.  Python truthiness of
`.get('privileged')`, `.get('read_only')` is a `Bool`; `.get('user')`
truthiness is "present and non-empty string". -/

/-- A compose `volumes` entry: a plain string or a long-syntax mapping
(of which the scanner reads only `source`). -/
inductive VolumeEntry where
  | str (s : String)
  | obj (source : Option String)
deriving DecidableEq

/-- A compose `ports` entry: the scanner only inspects string entries. -/
inductive PortEntry where
  | str (s : String)
  | other
deriving DecidableEq

/-- A compose `environment` block: list form (`"K=V"` strings) or map form. -/
inductive EnvSpec where
  | list (xs : List String)
  | map (kvs : List (String × String))
deriving DecidableEq

/-- One service configuration under `services:`. -/
structure ServiceConfig where
  privileged : Bool := false
  network_mode : Option String := none
  pid : Option String := none
  ipc : Option String := none
  volumes : List VolumeEntry := []
  read_only : Bool := false
  user : Option String := none
  cap_add : List String := []
  ports : List PortEntry := []
  environment : EnvSpec := .map []
deriving DecidableEq

/-- Python truthiness of the `user` value. -/
def userTruthy : Option String → Bool
  | none => false
  | some s => !s.isEmpty

/-- One record appended to `self.issues` by the compose scanner. -/
structure Finding where
  file : String
  service : String
  rule : String
  severity : String
  description : String
  recommendation : String
deriving DecidableEq

/-- The static `security_rules` table: severity per rule name. -/
def ruleSeverity : String → Option String
  | "privileged_containers" => some "critical"
  | "host_network" => some "high"
  | "host_pid" => some "high"
  | "host_ipc" => some "high"
  | "docker_socket_mount" => some "critical"
  | "root_filesystem_writable" => some "medium"
  | "no_user_specified" => some "medium"
  | "insecure_capabilities" => some "high"
  | "host_port_binding" => some "low"
  | "default_secrets" => some "high"
  | "insecure_environment" => some "medium"
  | _ => none

/-- The static `security_rules` table: description per rule name. -/
def ruleDescription : String → Option String
  | "privileged_containers" => some "Container running in privileged mode"
  | "host_network" => some "Container using host network mode"
  | "host_pid" => some "Container sharing host PID namespace"
  | "host_ipc" => some "Container sharing host IPC namespace"
  | "docker_socket_mount" => some "Docker socket mounted in container"
  | "root_filesystem_writable" => some "Container root filesystem is writable"
  | "no_user_specified" => some "Container running as root user"
  | "insecure_capabilities" => some "Container has dangerous capabilities"
  | "host_port_binding" => some "Service binding to all interfaces (0.0.0.0)"
  | "default_secrets" => some "Potential default or weak secrets detected"
  | "insecure_environment" => some "Potentially sensitive data in environment variables"
  | _ => none

/-- The static `security_rules` table: recommendation per rule name. -/
def ruleRecommendation : String → Option String
  | "privileged_containers" => some "Remove privileged: true or use specific capabilities instead"
  | "host_network" => some "Use bridge network mode and expose specific ports"
  | "host_pid" => some "Remove pid: host unless absolutely necessary"
  | "host_ipc" => some "Remove ipc: host unless absolutely necessary"
  | "docker_socket_mount" => some "Avoid mounting /var/run/docker.sock unless absolutely necessary"
  | "root_filesystem_writable" => some "Set read_only: true for container filesystem"
  | "no_user_specified" => some "Specify non-root user with user: directive"
  | "insecure_capabilities" => some "Remove dangerous capabilities like SYS_ADMIN, NET_ADMIN"
  | "host_port_binding" => some "Bind to specific interfaces when possible"
  | "default_secrets" => some "Use strong, unique secrets and avoid defaults"
  | "insecure_environment" => some "Use secrets or external configuration for sensitive data"
  | _ => none

/-- `DockerComposeSecurityScanner._add_issue`. -/
def add_issue (file_path service_name rule_name : String) : Finding :=
  { file := file_path
    service := service_name
    rule := rule_name
    severity := (ruleSeverity rule_name).getD "unknown"
    description := (ruleDescription rule_name).getD "Unknown security issue"
    recommendation := (ruleRecommendation rule_name).getD "Review configuration" }

/-- The volume loop of `_scan_service`. -/
def scanVolumes (fp svc : String) : List VolumeEntry → List Finding
  | [] => []
  | .str s :: rest =>
    (if strContains s "/var/run/docker.sock" then
      [add_issue fp svc "docker_socket_mount"] else []) ++ scanVolumes fp svc rest
  | .obj src :: rest =>
    (if src = some "/var/run/docker.sock" then
      [add_issue fp svc "docker_socket_mount"] else []) ++ scanVolumes fp svc rest

/-- `dangerous_caps` in `_scan_service`. -/
def dangerous_caps : List String :=
  ["SYS_ADMIN", "NET_ADMIN", "SYS_PTRACE", "SYS_MODULE", "DAC_OVERRIDE"]

/-- The capability loop of `_scan_service`: one finding per dangerous cap. -/
def scanCaps (fp svc : String) : List String → List Finding
  | [] => []
  | cap :: rest =>
    (if dangerous_caps.contains cap then
      [add_issue fp svc "insecure_capabilities"] else []) ++ scanCaps fp svc rest

/-- The port loop of `_scan_service`. -/
def scanPorts (fp svc : String) : List PortEntry → List Finding
  | [] => []
  | .str s :: rest =>
    (if strStartsWith s "0.0.0.0:" then
      [add_issue fp svc "host_port_binding"] else []) ++ scanPorts fp svc rest
  | .other :: rest => scanPorts fp svc rest

/-- `sensitive_patterns` in `_scan_service`. -/
def sensitive_patterns : List String :=
  ["password", "secret", "key", "token", "api_key", "private"]

/-- The weak-value keywords checked inside the environment loop. -/
def weak_values : List String := ["123", "password", "secret", "admin", "root"]

/-- The environment representation normalisation of `_scan_service`:
a list stays as-is, a map becomes `"k=v"` strings. -/
def envVars : EnvSpec → List String
  | .list xs => xs
  | .map kvs => kvs.map (fun kv => kv.1 ++ "=" ++ kv.2)

/-- Body of the environment loop for one env entry: at most one finding,
`default_secrets` when a weak value also matches (the Python `break` ends
the pattern loop after the first sensitive match). -/
def scanEnvVar (fp svc : String) (env_var : String) : List Finding :=
  let env_lower := strLower env_var
  if sensitive_patterns.any (fun p => strContains env_lower p) then
    if weak_values.any (fun w => strContains env_lower w) then
      [add_issue fp svc "default_secrets"]
    else
      [add_issue fp svc "insecure_environment"]
  else []

/-- The environment loop of `_scan_service`. -/
def scanEnv (fp svc : String) : List String → List Finding
  | [] => []
  | e :: rest => scanEnvVar fp svc e ++ scanEnv fp svc rest

/-- `DockerComposeSecurityScanner._scan_service`: the checks run in source
order and each appends its findings. -/
def scan_service (fp svc : String) (c : ServiceConfig) : List Finding :=
  (if c.privileged then [add_issue fp svc "privileged_containers"] else []) ++
  (if c.network_mode = some "host" then [add_issue fp svc "host_network"] else []) ++
  (if c.pid = some "host" then [add_issue fp svc "host_pid"] else []) ++
  (if c.ipc = some "host" then [add_issue fp svc "host_ipc"] else []) ++
  scanVolumes fp svc c.volumes ++
  (if !c.read_only then [add_issue fp svc "root_filesystem_writable"] else []) ++
  (if !userTruthy c.user then [add_issue fp svc "no_user_specified"] else []) ++
  scanCaps fp svc c.cap_add ++
  scanPorts fp svc c.ports ++
  scanEnv fp svc (envVars c.environment)

/-- Outcome of `yaml.safe_load` on one compose file: a parse exception,
a falsy document or one without a `services` key, or a services map. -/
inductive ComposeParse where
  | err (msg : String)
  | empty
  | ok (services : List (String × ServiceConfig))

/-- The synthetic finding appended by the `except` clause of
`scan_compose_file`. -/
def composeParseErrorFinding (fp msg : String) : Finding :=
  { file := fp
    service := "N/A"
    rule := "parse_error"
    severity := "high"
    description := "Failed to parse Docker Compose file: " ++ msg
    recommendation := "Fix YAML syntax errors in Docker Compose file" }

/-- The service loop of `scan_compose_file`. -/
def scanServices (fp : String) : List (String × ServiceConfig) → List Finding
  | [] => []
  | (name, cfg) :: rest => scan_service fp name cfg ++ scanServices fp rest

/-- `DockerComposeSecurityScanner.scan_compose_file` (its effect on
`self.issues` for one input). -/
def scan_compose_file (fp : String) (pr : ComposeParse) : List Finding :=
  match pr with
  | .err msg => [composeParseErrorFinding fp msg]
  | .empty => []
  | .ok services => scanServices fp services

/-- Scanning a batch of compose files: each file appends its findings and
processing always continues with the rest. -/
def scan_compose_files : List (String × ComposeParse) → List Finding
  | [] => []
  | (fp, pr) :: rest => scan_compose_file fp pr ++ scan_compose_files rest

/-! ## github-actions-security.py : data model of a workflow -/

/-- A step `env` value: the scanner only inspects string values. -/
inductive StepEnvVal where
  | str (s : String)
  | other
deriving DecidableEq

/-- One step configuration (the keys `_scan_step` reads). -/
structure StepConfig where
  name : Option String := none
  uses : String := ""
  run : String := ""
  env : List (String × StepEnvVal) := []
  with_config : List (String × String) := []
deriving DecidableEq

/-- A job `runs-on` value: the scanner only inspects string values. -/
inductive RunsOn where
  | str (s : String)
  | other
deriving DecidableEq

/-- One job configuration (the keys `_scan_job` reads); `permissions`
is modelled in its mapping form. -/
structure JobConfig where
  permissions : List (String × String) := []
  runs_on : RunsOn := .str ""
  steps : List StepConfig := []
deriving DecidableEq

/-- One record appended to `self.issues` by the workflow scanner. -/
structure WfFinding where
  file : String
  job : String
  step : String
  rule : String
  severity : String
  description : String
  recommendation : String
deriving DecidableEq

/-- The workflow scanner's `security_rules` table: severity per rule. -/
def wfRuleSeverity : String → Option String
  | "pull_request_target_checkout" => some "critical"
  | "script_injection" => some "critical"
  | "third_party_action_no_pin" => some "high"
  | "secrets_in_environment" => some "high"
  | "write_permissions_broad" => some "medium"
  | "self_hosted_runner" => some "medium"
  | "artifact_upload_no_retention" => some "low"
  | "cache_key_predictable" => some "low"
  | _ => none

/-- The workflow scanner's `security_rules` table: description per rule. -/
def wfRuleDescription : String → Option String
  | "pull_request_target_checkout" => some "pull_request_target with checkout of PR code"
  | "script_injection" => some "Potential script injection vulnerability"
  | "third_party_action_no_pin" => some "Third-party action not pinned to specific version"
  | "secrets_in_environment" => some "Secrets exposed in environment variables"
  | "write_permissions_broad" => some "Broad write permissions granted"
  | "self_hosted_runner" => some "Using self-hosted runners"
  | "artifact_upload_no_retention" => some "Artifact upload without retention policy"
  | "cache_key_predictable" => some "Predictable cache keys may lead to cache poisoning"
  | _ => none

/-- The workflow scanner's `security_rules` table: recommendation per rule. -/
def wfRuleRecommendation : String → Option String
  | "pull_request_target_checkout" => some "Use pull_request trigger or checkout specific ref"
  | "script_injection" => some "Use environment variables instead of direct interpolation"
  | "third_party_action_no_pin" => some "Pin actions to specific commit SHA or version tag"
  | "secrets_in_environment" => some "Use secrets context only when necessary"
  | "write_permissions_broad" => some "Use minimal required permissions"
  | "self_hosted_runner" => some "Ensure self-hosted runners are properly secured"
  | "artifact_upload_no_retention" => some "Set appropriate retention period for artifacts"
  | "cache_key_predictable" => some "Use unique, unpredictable cache keys"
  | _ => none

/-- `GitHubActionsSecurityScanner._add_issue`. -/
def wf_add_issue (file_path job_name step_name rule_name : String) : WfFinding :=
  { file := file_path
    job := job_name
    step := step_name
    rule := rule_name
    severity := (wfRuleSeverity rule_name).getD "unknown"
    description := (wfRuleDescription rule_name).getD "Unknown security issue"
    recommendation := (wfRuleRecommendation rule_name).getD "Review configuration" }

/-- Python `'0123456789abcdef'` membership of one character of the
lower-cased version part. -/
def isHexDigitChar (c : Char) : Bool :=
  "0123456789abcdef".toList.contains c

/-- The version-pin check on an external `uses` reference containing `@`:
the Python condition `not (len == 40 and all hex on lowered) and not
startswith v and not version_part[0].isdigit()`, evaluated left to right;
indexing an empty version part raises `IndexError`. -/
def pinCheck (fp job_name step_name : String) (uses : String) :
    Except String (List WfFinding) :=
  let version_part := splitSecond '@' uses
  if version_part.length = 40 &&
      (strLower version_part).toList.all (fun c => isHexDigitChar c) then
    .ok []
  else if strStartsWith version_part "v" then
    .ok []
  else
    match version_part.toList with
    | [] => .error "string index out of range"
    | c :: _ =>
      if c.isDigit then .ok []
      else .ok [wf_add_issue fp job_name step_name "third_party_action_no_pin"]

/-- `dangerous_contexts` in `_scan_step`. -/
def dangerous_contexts : List String :=
  ["github.event.", "github.head_ref", "github.base_ref"]

/-- The step `env` loop of `_scan_step`: one finding per matching entry. -/
def scanStepEnv (fp job_name step_name : String) :
    List (String × StepEnvVal) → List WfFinding
  | [] => []
  | (env_name, .str env_value) :: rest =>
    (if strContains env_value "secrets." &&
        (["url", "endpoint", "host"].any
          (fun k => strContains (strLower env_name) k)) then
      [wf_add_issue fp job_name step_name "secrets_in_environment"] else []) ++
    scanStepEnv fp job_name step_name rest
  | (_, .other) :: rest => scanStepEnv fp job_name step_name rest

/-- `GitHubActionsSecurityScanner._scan_step`: the checks run in source
order; a raise in the pin check aborts the rest of the step. -/
def scan_step (fp job_name : String) (step_index : Nat) (step : StepConfig) :
    Except String (List WfFinding) := do
  let step_name := step.name.getD ("step-" ++ toString step_index)
  let uses := step.uses
  let pin ←
    if !uses.isEmpty && !strStartsWith uses "./" && !strStartsWith uses "docker://" then
      if strContains uses "@" then
        pinCheck fp job_name step_name uses
      else
        pure [wf_add_issue fp job_name step_name "third_party_action_no_pin"]
    else
      pure []
  let run_command := step.run
  let inj :=
    if !run_command.isEmpty && strContains run_command "$\x7b\x7b" &&
        dangerous_contexts.any (fun ctx => strContains run_command ctx) then
      [wf_add_issue fp job_name step_name "script_injection"]
    else []
  let envFs := scanStepEnv fp job_name step_name step.env
  let artifact :=
    if strStartsWith uses "actions/upload-artifact" &&
        !(step.with_config.map Prod.fst).contains "retention-days" then
      [wf_add_issue fp job_name step_name "artifact_upload_no_retention"]
    else []
  let cacheKey := ((step.with_config.find? (fun kv => kv.1 = "key")).map Prod.snd).getD ""
  let cache :=
    if strStartsWith uses "actions/cache" && !cacheKey.isEmpty &&
        !(["$\x7b\x7b", "hashFiles", "runner.os"].any
            (fun v => strContains cacheKey v)) then
      [wf_add_issue fp job_name step_name "cache_key_predictable"]
    else []
  pure (pin ++ inj ++ envFs ++ artifact ++ cache)

/-- The step loop of `_scan_job`: on a raise the findings appended so far
survive (they are on `self.issues` already) and the error carries them. -/
def scanSteps (fp job_name : String) (i : Nat) (acc : List WfFinding) :
    List StepConfig → Except (List WfFinding × String) (List WfFinding)
  | [] => .ok acc
  | step :: rest =>
    match scan_step fp job_name i step with
    | .error msg => .error (acc, msg)
    | .ok fs => scanSteps fp job_name (i + 1) (acc ++ fs) rest

/-- `GitHubActionsSecurityScanner._scan_job`. -/
def scan_job (fp job_name : String) (job : JobConfig) :
    Except (List WfFinding × String) (List WfFinding) :=
  let permFs :=
    if (job.permissions.filter (fun kv => kv.2 = "write")).length > 3 then
      [wf_add_issue fp job_name "permissions" "write_permissions_broad"]
    else []
  let runnerFs :=
    match job.runs_on with
    | .str s =>
      if strContains s "self-hosted" then
        [wf_add_issue fp job_name "runner" "self_hosted_runner"]
      else []
    | .other => []
  scanSteps fp job_name 0 (permFs ++ runnerFs) job.steps

/-- One parsed workflow document (the keys `scan_workflow_file` reads):
the trigger keys under `on` and the jobs map. -/
structure WorkflowDoc where
  on_keys : List String := []
  jobs : List (String × JobConfig) := []

/-- Outcome of `yaml.safe_load` on one workflow file. -/
inductive WorkflowParse where
  | err (msg : String)
  | empty
  | ok (doc : WorkflowDoc)

/-- The synthetic finding appended by the `except` clause of
`scan_workflow_file`. -/
def wfParseErrorFinding (fp msg : String) : WfFinding :=
  { file := fp
    job := "N/A"
    step := "N/A"
    rule := "parse_error"
    severity := "high"
    description := "Failed to parse workflow file: " ++ msg
    recommendation := "Fix YAML syntax errors in workflow file" }

/-- `GitHubActionsSecurityScanner._check_triggers`. -/
def check_triggers (fp : String) (triggers : List String) : List WfFinding :=
  if triggers.contains "pull_request_target" then
    [wf_add_issue fp "trigger" "pull_request_target" "pull_request_target_checkout"]
  else []

/-- The job loop of `scan_workflow_file`: an exception in a job aborts the
remaining jobs of this file and is caught by the file-level handler, which
appends the single parse-error finding after everything appended so far. -/
def scanJobs (fp : String) (acc : List WfFinding) :
    List (String × JobConfig) → List WfFinding
  | [] => acc
  | (job_name, job) :: rest =>
    match scan_job fp job_name job with
    | .ok fs => scanJobs fp (acc ++ fs) rest
    | .error (fs, msg) => acc ++ fs ++ [wfParseErrorFinding fp msg]

/-- `GitHubActionsSecurityScanner.scan_workflow_file` (its effect on
`self.issues` for one input). -/
def scan_workflow_file (fp : String) (pr : WorkflowParse) : List WfFinding :=
  match pr with
  | .err msg => [wfParseErrorFinding fp msg]
  | .empty => []
  | .ok doc => scanJobs fp (check_triggers fp doc.on_keys) doc.jobs

/-- `scan_workflows_directory`: each file appends its findings and
processing always continues with the rest. -/
def scan_workflow_files : List (String × WorkflowParse) → List WfFinding
  | [] => []
  | (fp, pr) :: rest => scan_workflow_file fp pr ++ scan_workflow_files rest

/-! ## security-quality-gate.py : the gate decision engine

`self.results` is the engine state; every `.get(..., default)` on the
loaded YAML configuration is modelled by a structure field whose default
value is the Python default. -/

/-- One entry of `failed_gates` / `passed_gates` (the wall-clock
`timestamp` field is external time and is omitted). -/
structure GateRecord where
  gate : String
  reason : String
deriving DecidableEq

/-- `self.results` as initialised in `SecurityQualityGate.__init__`. -/
structure GateResults where
  passed : Bool := true
  total_issues : Nat := 0
  critical_issues : Nat := 0
  high_issues : Nat := 0
  medium_issues : Nat := 0
  low_issues : Nat := 0
  security_debt : Int := 0
  failed_gates : List GateRecord := []
  passed_gates : List GateRecord := []
  exempted_issues : Nat := 0
deriving DecidableEq

/-- The initial results record. -/
def initResults : GateResults := {}

/-- `SecurityQualityGate._fail_gate`. -/
def fail_gate (s : GateResults) (gate_name reason : String) : GateResults :=
  { s with passed := false,
           failed_gates := s.failed_gates ++ [⟨gate_name, reason⟩] }

/-- `SecurityQualityGate._pass_gate`. -/
def pass_gate (s : GateResults) (gate_name reason : String) : GateResults :=
  { s with passed_gates := s.passed_gates ++ [⟨gate_name, reason⟩] }

/-- Per-tool threshold configuration (`.get` defaults as field defaults). -/
structure ToolGateConfig where
  enabled : Bool := true
  fail_on_critical : Bool := false
  fail_on_high : Bool := false
  max_issues : Nat := 0
  max_critical : Nat := 0
  max_high : Nat := 0
deriving DecidableEq

/-- The loaded security-gates configuration: enable flags, the two
tools with real threshold logic, debt scoring weights and the global
thresholds, each defaulted as the corresponding `.get` call defaults. -/
structure GateConfig where
  sast_enabled : Bool := true
  eslint_security : ToolGateConfig := {}
  semgrep_enabled : Bool := true
  codeql_enabled : Bool := true
  sonarcloud_enabled : Bool := true
  dependencies_enabled : Bool := true
  npm_audit : ToolGateConfig := {}
  snyk_enabled : Bool := true
  osv_scanner_enabled : Bool := true
  containers_enabled : Bool := true
  trivy_enabled : Bool := true
  grype_enabled : Bool := true
  iac_enabled : Bool := true
  checkov_enabled : Bool := true
  kics_enabled : Bool := true
  hadolint_enabled : Bool := true
  secrets_enabled : Bool := true
  trufflehog_enabled : Bool := true
  scoring_critical : Int := 50
  scoring_high : Int := 20
  scoring_medium : Int := 5
  scoring_low : Int := 1
  scoring_info : Int := 0
  max_total_debt : Int := 100
  global_fail_on_critical : Bool := true
  fail_on_high_threshold : Int := 5
deriving DecidableEq

/-- The `eslint-security-results.json` input: absent file, unparsable
file, or a list of results each holding its message severities. -/
inductive EslintInput where
  | absent
  | err (msg : String)
  | ok (data : List (List Int))

/-- One `npm-audit-*.json` file: unreadable, or its vulnerabilities map
as (package, severity) pairs. -/
inductive NpmParse where
  | err (msg : String)
  | ok (vulns : List (String × String))

/-- The external inputs the gate engine reads from the filesystem
(the simulated checks read nothing). -/
structure ScanInputs where
  eslint : EslintInput := .absent
  npm_audit_files : List NpmParse := []

/-- The message loop of `_check_eslint_security`: messages with ESLint
severity 2 count as high. -/
def eslintHighCount : List (List Int) → Nat
  | [] => 0
  | msgs :: rest => (msgs.filter (fun sev => sev = 2)).length + eslintHighCount rest

/-- `SecurityQualityGate._check_eslint_security`: skipped when the file is
absent; a read/parse error leaves the state unchanged. -/
def check_eslint_security (cfg : GateConfig) (inp : ScanInputs)
    (s : GateResults) : GateResults :=
  match inp.eslint with
  | .absent => s
  | .err _ => s
  | .ok data =>
    let critical_count : Nat := 0
    let high_count := eslintHighCount data
    let c := cfg.eslint_security
    let gate_name := "ESLint Security"
    let s :=
      if c.fail_on_critical ∧ critical_count > 0 then
        fail_gate s gate_name ("Critical issues found: " ++ toString critical_count)
      else if c.fail_on_high ∧ high_count > 0 then
        fail_gate s gate_name ("High severity issues found: " ++ toString high_count)
      else if high_count > c.max_issues then
        fail_gate s gate_name ("Issues exceed threshold: " ++ toString high_count
          ++ " > " ++ toString c.max_issues)
      else
        pass_gate s gate_name ("Issues within threshold: " ++ toString high_count)
    { s with high_issues := s.high_issues + high_count }

/-- Critical count of one npm-audit vulnerabilities map. -/
def npmFileCrit (v : List (String × String)) : Nat :=
  (v.filter (fun p => strLower p.2 = "critical")).length

/-- High count of one npm-audit vulnerabilities map. -/
def npmFileHigh (v : List (String × String)) : Nat :=
  (v.filter (fun p => strLower p.2 = "high")).length

/-- The file loop of `_check_npm_audit`: an unreadable file contributes
nothing and the loop continues. -/
def npmTotals : List NpmParse → Nat × Nat
  | [] => (0, 0)
  | .err _ :: rest => npmTotals rest
  | .ok v :: rest =>
    let t := npmTotals rest
    (npmFileCrit v + t.1, npmFileHigh v + t.2)

/-- `SecurityQualityGate._check_npm_audit`: skipped when no audit file
exists. -/
def check_npm_audit (cfg : GateConfig) (inp : ScanInputs)
    (s : GateResults) : GateResults :=
  match inp.npm_audit_files with
  | [] => s
  | files =>
    let total_critical := (npmTotals files).1
    let total_high := (npmTotals files).2
    let c := cfg.npm_audit
    let gate_name := "NPM Audit"
    let s :=
      if c.fail_on_critical ∧ total_critical > c.max_critical then
        fail_gate s gate_name ("Critical vulnerabilities: " ++ toString total_critical
          ++ " > " ++ toString c.max_critical)
      else if c.fail_on_high ∧ total_high > c.max_high then
        fail_gate s gate_name ("High vulnerabilities: " ++ toString total_high
          ++ " > " ++ toString c.max_high)
      else
        pass_gate s gate_name ("Vulnerabilities within threshold: C:"
          ++ toString total_critical ++ ", H:" ++ toString total_high)
    { s with critical_issues := s.critical_issues + total_critical,
             high_issues := s.high_issues + total_high }

/-- `_check_semgrep` (simulated in the source: always passes). -/
def check_semgrep (s : GateResults) : GateResults :=
  pass_gate s "Semgrep" "No critical issues found"

/-- `_check_codeql` (simulated in the source: always passes). -/
def check_codeql (s : GateResults) : GateResults :=
  pass_gate s "CodeQL" "No critical issues found"

/-- `_check_sonarcloud` (simulated in the source: always passes). -/
def check_sonarcloud (s : GateResults) : GateResults :=
  pass_gate s "SonarCloud" "Quality gate passed"

/-- `_check_snyk` (simulated in the source: always passes). -/
def check_snyk (s : GateResults) : GateResults :=
  pass_gate s "Snyk" "No critical vulnerabilities found"

/-- `_check_osv_scanner` (simulated in the source: always passes). -/
def check_osv_scanner (s : GateResults) : GateResults :=
  pass_gate s "OSV Scanner" "No critical vulnerabilities found"

/-- `_check_trivy` (simulated in the source: always passes). -/
def check_trivy (s : GateResults) : GateResults :=
  pass_gate s "Trivy" "No critical container vulnerabilities found"

/-- `_check_grype` (simulated in the source: always passes). -/
def check_grype (s : GateResults) : GateResults :=
  pass_gate s "Grype" "No critical container vulnerabilities found"

/-- `_check_checkov` (simulated in the source: always passes). -/
def check_checkov (s : GateResults) : GateResults :=
  pass_gate s "Checkov" "No critical IaC issues found"

/-- `_check_kics` (simulated in the source: always passes). -/
def check_kics (s : GateResults) : GateResults :=
  pass_gate s "KICS" "No critical IaC issues found"

/-- `_check_hadolint` (simulated in the source: always passes). -/
def check_hadolint (s : GateResults) : GateResults :=
  pass_gate s "Hadolint" "No critical Dockerfile issues found"

/-- `_check_trufflehog` (simulated in the source: always passes). -/
def check_trufflehog (s : GateResults) : GateResults :=
  pass_gate s "TruffleHog" "No verified secrets found"

/-- `SecurityQualityGate.check_sast_gates`. -/
def check_sast_gates (cfg : GateConfig) (inp : ScanInputs)
    (s : GateResults) : GateResults :=
  if ¬cfg.sast_enabled then s else
  let s := if cfg.eslint_security.enabled then check_eslint_security cfg inp s else s
  let s := if cfg.semgrep_enabled then check_semgrep s else s
  let s := if cfg.codeql_enabled then check_codeql s else s
  if cfg.sonarcloud_enabled then check_sonarcloud s else s

/-- `SecurityQualityGate.check_dependency_gates`. -/
def check_dependency_gates (cfg : GateConfig) (inp : ScanInputs)
    (s : GateResults) : GateResults :=
  if ¬cfg.dependencies_enabled then s else
  let s := if cfg.npm_audit.enabled then check_npm_audit cfg inp s else s
  let s := if cfg.snyk_enabled then check_snyk s else s
  if cfg.osv_scanner_enabled then check_osv_scanner s else s

/-- `SecurityQualityGate.check_container_gates`. -/
def check_container_gates (cfg : GateConfig) (s : GateResults) : GateResults :=
  if ¬cfg.containers_enabled then s else
  let s := if cfg.trivy_enabled then check_trivy s else s
  if cfg.grype_enabled then check_grype s else s

/-- `SecurityQualityGate.check_iac_gates`. -/
def check_iac_gates (cfg : GateConfig) (s : GateResults) : GateResults :=
  if ¬cfg.iac_enabled then s else
  let s := if cfg.checkov_enabled then check_checkov s else s
  let s := if cfg.kics_enabled then check_kics s else s
  if cfg.hadolint_enabled then check_hadolint s else s

/-- `SecurityQualityGate.check_secrets_gates`. -/
def check_secrets_gates (cfg : GateConfig) (s : GateResults) : GateResults :=
  if ¬cfg.secrets_enabled then s else
  if cfg.trufflehog_enabled then check_trufflehog s else s

/-- The debt sum of `calculate_security_debt` (the `info` weight does not
appear in the source formula). -/
def debtOf (cfg : GateConfig) (s : GateResults) : Int :=
  (s.critical_issues : Int) * cfg.scoring_critical +
  (s.high_issues : Int) * cfg.scoring_high +
  (s.medium_issues : Int) * cfg.scoring_medium +
  (s.low_issues : Int) * cfg.scoring_low

/-- `SecurityQualityGate.calculate_security_debt`. -/
def calculate_security_debt (cfg : GateConfig) (s : GateResults) : GateResults :=
  let debt := debtOf cfg s
  let s := { s with security_debt := debt }
  if debt > cfg.max_total_debt then
    fail_gate s "Security Debt" ("Total debt " ++ toString debt
      ++ " exceeds maximum " ++ toString cfg.max_total_debt)
  else
    pass_gate s "Security Debt" ("Total debt " ++ toString debt
      ++ " within limit " ++ toString cfg.max_total_debt)

/-- `SecurityQualityGate.check_global_thresholds`. -/
def check_global_thresholds (cfg : GateConfig) (s : GateResults) : GateResults :=
  let s :=
    if cfg.global_fail_on_critical ∧ s.critical_issues > 0 then
      fail_gate s "Global Critical Threshold"
        ("Critical issues found: " ++ toString s.critical_issues)
    else s
  if (s.high_issues : Int) > cfg.fail_on_high_threshold then
    fail_gate s "Global High Threshold" ("High issues " ++ toString s.high_issues
      ++ " exceed threshold " ++ toString cfg.fail_on_high_threshold)
  else s

/-- `SecurityQualityGate.run_all_checks` (its effect on `self.results`). -/
def run_all_checks (cfg : GateConfig) (inp : ScanInputs) : GateResults :=
  check_global_thresholds cfg
    (calculate_security_debt cfg
      (check_secrets_gates cfg
        (check_iac_gates cfg
          (check_container_gates cfg
            (check_dependency_gates cfg inp
              (check_sast_gates cfg inp initResults))))))

/-! ## Severity mapping functions of the report generators -/

/-- `DependencyReportGenerator._map_osv_severity`
(generate-dependency-report.py). -/
def map_osv_severity (sev : String) : String :=
  let u := strUpper sev
  if u = "CRITICAL" then "critical"
  else if u = "HIGH" then "high"
  else if u = "MODERATE" then "medium"
  else if u = "LOW" then "low"
  else "medium"

/-- `IaCReportGenerator._map_checkov_severity` (generate-iac-report.py). -/
def map_checkov_severity (sev : String) : String :=
  let u := strUpper sev
  if u = "CRITICAL" then "critical"
  else if u = "HIGH" then "high"
  else if u = "MEDIUM" then "medium"
  else if u = "LOW" then "low"
  else if u = "INFO" then "info"
  else "medium"

/-- `DASTReportGenerator._map_nuclei_severity` (generate-dast-report.py). -/
def map_nuclei_severity (sev : String) : String :=
  let l := strLower sev
  if l = "critical" then "Critical"
  else if l = "high" then "High"
  else if l = "medium" then "Medium"
  else if l = "low" then "Low"
  else if l = "info" then "Informational"
  else "Unknown"

/-- The per-severity counters of the DAST report generator. -/
structure DastSummary where
  critical : Nat := 0
  high : Nat := 0
  medium : Nat := 0
  low : Nat := 0
  info : Nat := 0
  total : Nat := 0
deriving DecidableEq

/-- Python `version_part[0].isdigit()` (guarded: the caller has already
established the string is nonempty, else it raises). -/
def firstIsDigit (s : String) : Bool :=
  match s.toList with
  | [] => false
  | c :: _ => c.isDigit

/-- One gate evaluation event of a run: a `_fail_gate` or `_pass_gate`
call with its arguments. -/
inductive GateEvent where
  | fail (gate_name reason : String)
  | pass (gate_name reason : String)
deriving DecidableEq

/-- Apply one gate evaluation to the results record. -/
def applyEvent (s : GateResults) : GateEvent → GateResults
  | .fail g r => fail_gate s g r
  | .pass g r => pass_gate s g r

/-- Apply a sequence of gate evaluations in order. -/
def applyEvents (s : GateResults) : List GateEvent → GateResults
  | [] => s
  | e :: es => applyEvents (applyEvent s e) es

/-- The verdict/failure-list consistency invariant of the engine state:
`passed` holds exactly while no gate has failed. -/
def consistent (s : GateResults) : Prop :=
  s.passed = s.failed_gates.isEmpty

/-- The properties every check of the engine preserves: it never touches
the medium/low counters, never resurrects a failed verdict, and keeps the
verdict consistent with the failed-gate list. -/
def checkKeeps (f : GateResults → GateResults) : Prop :=
  ∀ s, (f s).medium_issues = s.medium_issues ∧
    (f s).low_issues = s.low_issues ∧
    ((f s).passed = true → s.passed = true) ∧
    (consistent s → consistent (f s))

/-- The debt and global-threshold stages additionally never change any
issue counter. -/
def countsKeep (f : GateResults → GateResults) : Prop :=
  ∀ s, (f s).critical_issues = s.critical_issues ∧
    (f s).high_issues = s.high_issues ∧
    (f s).medium_issues = s.medium_issues ∧
    (f s).low_issues = s.low_issues

/-- `DASTReportGenerator._update_summary`: substring match on the
lower-cased risk, anything unrecognised counted as info. -/
def dast_update_summary (s : DastSummary) (risk : String) : DastSummary :=
  let risk_lower := strLower risk
  if strContains risk_lower "critical" then
    { s with critical := s.critical + 1, total := s.total + 1 }
  else if strContains risk_lower "high" then
    { s with high := s.high + 1, total := s.total + 1 }
  else if strContains risk_lower "medium" then
    { s with medium := s.medium + 1, total := s.total + 1 }
  else if strContains risk_lower "low" then
    { s with low := s.low + 1, total := s.total + 1 }
  else
    { s with info := s.info + 1, total := s.total + 1 }

/-! ## Helper lemmas about the gate engine state -/

theorem fail_gate_fields (s : GateResults) (g r : String) :
    (fail_gate s g r).passed = false ∧
    (fail_gate s g r).failed_gates = s.failed_gates ++ [⟨g, r⟩] ∧
    (fail_gate s g r).passed_gates = s.passed_gates ∧
    (fail_gate s g r).critical_issues = s.critical_issues ∧
    (fail_gate s g r).high_issues = s.high_issues ∧
    (fail_gate s g r).medium_issues = s.medium_issues ∧
    (fail_gate s g r).low_issues = s.low_issues ∧
    (fail_gate s g r).security_debt = s.security_debt := by
  simp [fail_gate]

theorem pass_gate_fields (s : GateResults) (g r : String) :
    (pass_gate s g r).passed = s.passed ∧
    (pass_gate s g r).failed_gates = s.failed_gates ∧
    (pass_gate s g r).passed_gates = s.passed_gates ++ [⟨g, r⟩] ∧
    (pass_gate s g r).critical_issues = s.critical_issues ∧
    (pass_gate s g r).high_issues = s.high_issues ∧
    (pass_gate s g r).medium_issues = s.medium_issues ∧
    (pass_gate s g r).low_issues = s.low_issues ∧
    (pass_gate s g r).security_debt = s.security_debt := by
  simp [pass_gate]

theorem consistent_fail_gate (s : GateResults) (g r : String) :
    consistent (fail_gate s g r) := by
  unfold consistent fail_gate
  cases s.failed_gates <;> simp [List.isEmpty]

theorem consistent_pass_gate (s : GateResults) (g r : String)
    (h : consistent s) : consistent (pass_gate s g r) := by
  unfold consistent pass_gate at *
  simpa using h

theorem isEmpty_append_singleton (l : List GateRecord) (x : GateRecord) :
    (l ++ [x]).isEmpty = false := by
  cases l <;> simp [List.isEmpty]

theorem checkKeeps_pass_gate (g r : String) :
    checkKeeps (fun s => pass_gate s g r) := by
  intro s
  exact ⟨rfl, rfl, fun h => h, consistent_pass_gate s g r⟩

theorem checkKeeps_fail_gate (g r : String) :
    checkKeeps (fun s => fail_gate s g r) := by
  intro s
  refine ⟨rfl, rfl, fun h => ?_, fun _ => consistent_fail_gate s g r⟩
  simp [fail_gate] at h

theorem checkKeeps_eslint (cfg : GateConfig) (inp : ScanInputs) :
    checkKeeps (check_eslint_security cfg inp) := by
  intro s
  unfold check_eslint_security
  cases inp.eslint with
  | absent => exact ⟨rfl, rfl, fun h => h, fun h => h⟩
  | err m => exact ⟨rfl, rfl, fun h => h, fun h => h⟩
  | ok data =>
    dsimp only
    refine ⟨?_, ?_, ?_, ?_⟩
    · split_ifs <;> simp [fail_gate, pass_gate]
    · split_ifs <;> simp [fail_gate, pass_gate]
    · intro h
      split_ifs at h <;> simp_all [fail_gate, pass_gate]
    · intro hc
      split_ifs <;>
        simp_all [fail_gate, pass_gate, consistent, isEmpty_append_singleton]

theorem checkKeeps_npm (cfg : GateConfig) (inp : ScanInputs) :
    checkKeeps (check_npm_audit cfg inp) := by
  intro s
  unfold check_npm_audit
  cases inp.npm_audit_files with
  | nil => exact ⟨rfl, rfl, fun h => h, fun h => h⟩
  | cons f fs =>
    dsimp only
    refine ⟨?_, ?_, ?_, ?_⟩
    · split_ifs <;> simp [fail_gate, pass_gate]
    · split_ifs <;> simp [fail_gate, pass_gate]
    · intro h
      split_ifs at h <;> simp_all [fail_gate, pass_gate]
    · intro hc
      split_ifs <;>
        simp_all [fail_gate, pass_gate, consistent, isEmpty_append_singleton]

theorem checkKeeps_ite (c : Prop) [Decidable c] (f : GateResults → GateResults)
    (hf : checkKeeps f) : checkKeeps (fun s => if c then f s else s) := by
  intro s
  by_cases h : c
  · simpa [h] using hf s
  · simp [h]

theorem checkKeeps_comp (f g : GateResults → GateResults)
    (hf : checkKeeps f) (hg : checkKeeps g) : checkKeeps (fun s => g (f s)) := by
  intro s
  obtain ⟨hf1, hf2, hf3, hf4⟩ := hf s
  obtain ⟨hg1, hg2, hg3, hg4⟩ := hg (f s)
  exact ⟨hg1.trans hf1, hg2.trans hf2, fun h => hf3 (hg3 h), fun h => hg4 (hf4 h)⟩

theorem checkKeeps_sast (cfg : GateConfig) (inp : ScanInputs) :
    checkKeeps (check_sast_gates cfg inp) := by
  have h1 : checkKeeps (fun t => if cfg.eslint_security.enabled then
      check_eslint_security cfg inp t else t) :=
    checkKeeps_ite _ _ (checkKeeps_eslint cfg inp)
  have h2 : checkKeeps (fun t => if cfg.semgrep_enabled then check_semgrep t else t) :=
    checkKeeps_ite _ _ (checkKeeps_pass_gate "Semgrep" "No critical issues found")
  have h3 : checkKeeps (fun t => if cfg.codeql_enabled then check_codeql t else t) :=
    checkKeeps_ite _ _ (checkKeeps_pass_gate "CodeQL" "No critical issues found")
  have h4 : checkKeeps (fun t => if cfg.sonarcloud_enabled then check_sonarcloud t else t) :=
    checkKeeps_ite _ _ (checkKeeps_pass_gate "SonarCloud" "Quality gate passed")
  have h12 : checkKeeps (fun s =>
      (fun t => if cfg.semgrep_enabled then check_semgrep t else t)
        ((fun t => if cfg.eslint_security.enabled then
            check_eslint_security cfg inp t else t) s)) :=
    checkKeeps_comp _ _ h1 h2
  have h123 : checkKeeps (fun s =>
      (fun t => if cfg.codeql_enabled then check_codeql t else t)
        ((fun t => if cfg.semgrep_enabled then check_semgrep t else t)
          ((fun t => if cfg.eslint_security.enabled then
              check_eslint_security cfg inp t else t) s))) :=
    checkKeeps_comp _ _ h12 h3
  have h1234 : checkKeeps (fun s =>
      (fun t => if cfg.sonarcloud_enabled then check_sonarcloud t else t)
        ((fun t => if cfg.codeql_enabled then check_codeql t else t)
          ((fun t => if cfg.semgrep_enabled then check_semgrep t else t)
            ((fun t => if cfg.eslint_security.enabled then
                check_eslint_security cfg inp t else t) s)))) :=
    checkKeeps_comp _ _ h123 h4
  intro s
  by_cases he : cfg.sast_enabled
  · have heq : check_sast_gates cfg inp s =
        (fun t => if cfg.sonarcloud_enabled then check_sonarcloud t else t)
          ((fun t => if cfg.codeql_enabled then check_codeql t else t)
            ((fun t => if cfg.semgrep_enabled then check_semgrep t else t)
              ((fun t => if cfg.eslint_security.enabled then
                  check_eslint_security cfg inp t else t) s))) := by
      simp [check_sast_gates, he]
    rw [heq]
    exact h1234 s
  · have heq : check_sast_gates cfg inp s = s := by simp [check_sast_gates, he]
    rw [heq]
    exact ⟨rfl, rfl, fun h => h, fun h => h⟩

theorem checkKeeps_dependency (cfg : GateConfig) (inp : ScanInputs) :
    checkKeeps (check_dependency_gates cfg inp) := by
  have h1 : checkKeeps (fun t => if cfg.npm_audit.enabled then
      check_npm_audit cfg inp t else t) :=
    checkKeeps_ite _ _ (checkKeeps_npm cfg inp)
  have h2 : checkKeeps (fun t => if cfg.snyk_enabled then check_snyk t else t) :=
    checkKeeps_ite _ _ (checkKeeps_pass_gate "Snyk" "No critical vulnerabilities found")
  have h3 : checkKeeps (fun t => if cfg.osv_scanner_enabled then check_osv_scanner t else t) :=
    checkKeeps_ite _ _ (checkKeeps_pass_gate "OSV Scanner" "No critical vulnerabilities found")
  have h12 : checkKeeps (fun s =>
      (fun t => if cfg.snyk_enabled then check_snyk t else t)
        ((fun t => if cfg.npm_audit.enabled then check_npm_audit cfg inp t else t) s)) :=
    checkKeeps_comp _ _ h1 h2
  have h123 : checkKeeps (fun s =>
      (fun t => if cfg.osv_scanner_enabled then check_osv_scanner t else t)
        ((fun t => if cfg.snyk_enabled then check_snyk t else t)
          ((fun t => if cfg.npm_audit.enabled then check_npm_audit cfg inp t else t) s))) :=
    checkKeeps_comp _ _ h12 h3
  intro s
  by_cases he : cfg.dependencies_enabled
  · have heq : check_dependency_gates cfg inp s =
        (fun t => if cfg.osv_scanner_enabled then check_osv_scanner t else t)
          ((fun t => if cfg.snyk_enabled then check_snyk t else t)
            ((fun t => if cfg.npm_audit.enabled then check_npm_audit cfg inp t else t) s)) := by
      simp [check_dependency_gates, he]
    rw [heq]
    exact h123 s
  · have heq : check_dependency_gates cfg inp s = s := by
      simp [check_dependency_gates, he]
    rw [heq]
    exact ⟨rfl, rfl, fun h => h, fun h => h⟩

theorem checkKeeps_container (cfg : GateConfig) :
    checkKeeps (check_container_gates cfg) := by
  intro s
  unfold check_container_gates
  split_ifs <;>
    simp_all [check_trivy, check_grype, pass_gate, consistent]

theorem checkKeeps_iac (cfg : GateConfig) :
    checkKeeps (check_iac_gates cfg) := by
  intro s
  unfold check_iac_gates
  split_ifs <;>
    simp_all [check_checkov, check_kics, check_hadolint, pass_gate, consistent]

theorem checkKeeps_secrets (cfg : GateConfig) :
    checkKeeps (check_secrets_gates cfg) := by
  intro s
  unfold check_secrets_gates
  split_ifs <;>
    simp_all [check_trufflehog, pass_gate, consistent]

theorem checkKeeps_debt (cfg : GateConfig) :
    checkKeeps (calculate_security_debt cfg) := by
  intro s
  unfold calculate_security_debt
  dsimp only
  split_ifs <;>
    simp_all [fail_gate, pass_gate, consistent, isEmpty_append_singleton]

theorem checkKeeps_global (cfg : GateConfig) :
    checkKeeps (check_global_thresholds cfg) := by
  intro s
  unfold check_global_thresholds
  dsimp only
  split_ifs <;>
    simp_all [fail_gate, pass_gate, consistent, isEmpty_append_singleton]

theorem countsKeep_debt (cfg : GateConfig) :
    countsKeep (calculate_security_debt cfg) := by
  intro s
  unfold calculate_security_debt
  dsimp only
  split_ifs <;> simp [fail_gate, pass_gate]

theorem countsKeep_global (cfg : GateConfig) :
    countsKeep (check_global_thresholds cfg) := by
  intro s
  unfold check_global_thresholds
  dsimp only
  split_ifs <;> simp [fail_gate, pass_gate]

theorem debt_global (cfg : GateConfig) (s : GateResults) :
    (check_global_thresholds cfg s).security_debt = s.security_debt := by
  unfold check_global_thresholds
  dsimp only
  split_ifs <;> simp [fail_gate, pass_gate]

theorem debt_value (cfg : GateConfig) (s : GateResults) :
    (calculate_security_debt cfg s).security_debt = debtOf cfg s := by
  unfold calculate_security_debt
  dsimp only
  split_ifs <;> simp [fail_gate, pass_gate]

theorem applyEvents_monotone_aux :
    ∀ (evts : List GateEvent) (s : GateResults),
      s.passed = false → (applyEvents s evts).passed = false := by
  intro evts
  induction evts with
  | nil => intro s h; exact h
  | cons e es ih =>
    intro s h
    cases e with
    | fail g r => exact ih _ (by simp [applyEvent, fail_gate])
    | pass g r => exact ih _ (by simpa [applyEvent, pass_gate] using h)

theorem applyEvents_fail_mem_aux :
    ∀ (evts : List GateEvent) (s : GateResults) (g r : String),
      GateEvent.fail g r ∈ evts → (applyEvents s evts).passed = false := by
  intro evts
  induction evts with
  | nil => intro s g r h; cases h
  | cons e es ih =>
    intro s g r h
    rcases List.mem_cons.mp h with h | h
    · subst h
      exact applyEvents_monotone_aux es _ (by simp [applyEvent, fail_gate])
    · exact ih _ g r h

/-! ## Claim theorems about the gate decision engine -/

/-- C2: the security debt equals the sum over severities of count times
weight; the default weights are critical=50, high=20, medium=5, low=1,
info=0; counts {critical:1, high:2} give debt 90, which passes the debt
gate at `max_total_debt` 100 and fails it at 50; the debt gate fails
exactly when the debt strictly exceeds `max_total_debt`. -/
theorem C2_security_debt_score :
    (∀ (cfg : GateConfig) (s : GateResults),
      (calculate_security_debt cfg s).security_debt =
        (s.critical_issues : Int) * cfg.scoring_critical +
        (s.high_issues : Int) * cfg.scoring_high +
        (s.medium_issues : Int) * cfg.scoring_medium +
        (s.low_issues : Int) * cfg.scoring_low) ∧
    (∀ (cfg : GateConfig) (s : GateResults),
      ((calculate_security_debt cfg s).failed_gates ≠ s.failed_gates ↔
        debtOf cfg s > cfg.max_total_debt)) ∧
    (({} : GateConfig).scoring_critical = 50 ∧ ({} : GateConfig).scoring_high = 20 ∧
      ({} : GateConfig).scoring_medium = 5 ∧ ({} : GateConfig).scoring_low = 1 ∧
      ({} : GateConfig).scoring_info = 0 ∧ ({} : GateConfig).max_total_debt = 100) ∧
    (calculate_security_debt {} { critical_issues := 1, high_issues := 2 }).security_debt = 90 ∧
    (calculate_security_debt {} { critical_issues := 1, high_issues := 2 }).passed = true ∧
    (calculate_security_debt {} { critical_issues := 1, high_issues := 2 }).failed_gates = [] ∧
    (calculate_security_debt { max_total_debt := 50 }
      { critical_issues := 1, high_issues := 2 }).passed = false ∧
    (calculate_security_debt { max_total_debt := 50 }
        { critical_issues := 1, high_issues := 2 }).failed_gates =
      [⟨"Security Debt", "Total debt 90 exceeds maximum 50"⟩] := by
  refine ⟨?_, ?_, by decide, by decide, by decide, by decide, by decide, by decide⟩
  · intro cfg s
    exact debt_value cfg s
  · intro cfg s
    unfold calculate_security_debt
    dsimp only
    split_ifs with h
    · refine iff_of_true (fun heq => ?_) h
      have hl := congrArg List.length heq
      simp [fail_gate] at hl
    · refine iff_of_false (fun heq => heq ?_) h
      simp [pass_gate]

/-- C3: the engine is monotonic in the failing direction: once `passed`
is false no later gate evaluation (`_fail_gate` or `_pass_gate`) can set
it back to true; a run containing any failing gate evaluation ends with
`passed = false`; and in `run_all_checks` the final verdict is failed
exactly when the failed-gate list is nonempty. -/
theorem C3_gate_monotonic :
    (∀ (evts : List GateEvent) (s : GateResults),
      s.passed = false → (applyEvents s evts).passed = false) ∧
    (∀ (evts : List GateEvent) (s : GateResults) (g r : String),
      GateEvent.fail g r ∈ evts → (applyEvents s evts).passed = false) ∧
    (∀ (cfg : GateConfig) (inp : ScanInputs),
      ((run_all_checks cfg inp).passed = false ↔
        (run_all_checks cfg inp).failed_gates ≠ [])) := by
  refine ⟨applyEvents_monotone_aux, applyEvents_fail_mem_aux, ?_⟩
  intro cfg inp
  have hcons : consistent (run_all_checks cfg inp) := by
    unfold run_all_checks
    apply (checkKeeps_global cfg _).2.2.2
    apply (checkKeeps_debt cfg _).2.2.2
    apply (checkKeeps_secrets cfg _).2.2.2
    apply (checkKeeps_iac cfg _).2.2.2
    apply (checkKeeps_container cfg _).2.2.2
    apply (checkKeeps_dependency cfg inp _).2.2.2
    apply (checkKeeps_sast cfg inp _).2.2.2
    rfl
  unfold consistent at hcons
  rw [hcons]
  cases (run_all_checks cfg inp).failed_gates <;> simp [List.isEmpty]

/-- C3 witness: a concrete failing evaluation keeps the verdict failed
through a later passing evaluation, and a run containing a failing
evaluation ends failed. -/
theorem C3_gate_monotonic_witness :
    (applyEvents (fail_gate initResults "NPM Audit" "Critical vulnerabilities: 2 > 0")
      [GateEvent.pass "Trivy" "No critical container vulnerabilities found"]).passed = false ∧
    (applyEvents initResults
      [GateEvent.fail "Security Debt" "Total debt 120 exceeds maximum 100",
        GateEvent.pass "Semgrep" "No critical issues found"]).passed = false := by
  constructor
  · exact C3_gate_monotonic.1 _ _ (by simp [fail_gate])
  · exact C3_gate_monotonic.2.1 _ initResults "Security Debt"
      "Total debt 120 exceeds maximum 100" (by simp)

/-- C9: `medium_issues` and `low_issues` start at 0 and no check ever
increments them, so after `run_all_checks` the security debt is exactly
critical count times the critical weight plus high count times the high
weight. -/
theorem C9_medium_low_never_counted (cfg : GateConfig) (inp : ScanInputs) :
    (run_all_checks cfg inp).medium_issues = 0 ∧
    (run_all_checks cfg inp).low_issues = 0 ∧
    (run_all_checks cfg inp).security_debt =
      ((run_all_checks cfg inp).critical_issues : Int) * cfg.scoring_critical +
      ((run_all_checks cfg inp).high_issues : Int) * cfg.scoring_high := by
  have hr : run_all_checks cfg inp =
      check_global_thresholds cfg (calculate_security_debt cfg
        (check_secrets_gates cfg (check_iac_gates cfg (check_container_gates cfg
          (check_dependency_gates cfg inp (check_sast_gates cfg inp initResults)))))) := rfl
  obtain ⟨a1, b1, _, _⟩ := checkKeeps_sast cfg inp initResults
  obtain ⟨a2, b2, _, _⟩ := checkKeeps_dependency cfg inp
    (check_sast_gates cfg inp initResults)
  obtain ⟨a3, b3, _, _⟩ := checkKeeps_container cfg
    (check_dependency_gates cfg inp (check_sast_gates cfg inp initResults))
  obtain ⟨a4, b4, _, _⟩ := checkKeeps_iac cfg
    (check_container_gates cfg (check_dependency_gates cfg inp
      (check_sast_gates cfg inp initResults)))
  obtain ⟨a5, b5, _, _⟩ := checkKeeps_secrets cfg
    (check_iac_gates cfg (check_container_gates cfg (check_dependency_gates cfg inp
      (check_sast_gates cfg inp initResults))))
  obtain ⟨mdc, mdh, mdm, mdl⟩ := countsKeep_debt cfg
    (check_secrets_gates cfg (check_iac_gates cfg (check_container_gates cfg
      (check_dependency_gates cfg inp (check_sast_gates cfg inp initResults)))))
  obtain ⟨mgc, mgh, mgm, mgl⟩ := countsKeep_global cfg
    (calculate_security_debt cfg
      (check_secrets_gates cfg (check_iac_gates cfg (check_container_gates cfg
        (check_dependency_gates cfg inp (check_sast_gates cfg inp initResults))))))
  have hm5 : (check_secrets_gates cfg (check_iac_gates cfg (check_container_gates cfg
      (check_dependency_gates cfg inp
        (check_sast_gates cfg inp initResults))))).medium_issues = 0 := by
    rw [a5, a4, a3, a2, a1]
    rfl
  have hl5 : (check_secrets_gates cfg (check_iac_gates cfg (check_container_gates cfg
      (check_dependency_gates cfg inp
        (check_sast_gates cfg inp initResults))))).low_issues = 0 := by
    rw [b5, b4, b3, b2, b1]
    rfl
  refine ⟨?_, ?_, ?_⟩
  · rw [hr, mgm, mdm, hm5]
  · rw [hr, mgl, mdl, hl5]
  · rw [hr, debt_global, debt_value, mgc, mdc, mgh, mdh]
    unfold debtOf
    rw [hm5, hl5]
    push_cast
    ring

/-- C7 counterexample: with every tool enabled (the default configuration)
and no tool results present at all, the engine still records a passed
gate for each simulated tool (Semgrep, CodeQL, SonarCloud, Snyk,
OSV Scanner, Trivy, Grype, Checkov, KICS, Hadolint, TruffleHog), refuting
the claim that a tool with absent results contributes no gate entry. -/
theorem C7_counterexample :
    ({} : ScanInputs).eslint = EslintInput.absent ∧
    ({} : ScanInputs).npm_audit_files = [] ∧
    (run_all_checks {} {}).passed_gates.map GateRecord.gate =
      ["Semgrep", "CodeQL", "SonarCloud", "Snyk", "OSV Scanner", "Trivy",
        "Grype", "Checkov", "KICS", "Hadolint", "TruffleHog", "Security Debt"] := by
  exact ⟨rfl, rfl, by decide⟩

/-- C7 amended: only the ESLint Security and NPM Audit checks skip when
their results are absent (the state is returned unchanged, so neither a
passed nor a failed gate is recorded); every simulated check records a
passed gate unconditionally whenever it runs. -/
theorem C7_absent_results_amended :
    (∀ (cfg : GateConfig) (inp : ScanInputs) (s : GateResults),
      inp.eslint = EslintInput.absent → check_eslint_security cfg inp s = s) ∧
    (∀ (cfg : GateConfig) (inp : ScanInputs) (s : GateResults),
      inp.npm_audit_files = [] → check_npm_audit cfg inp s = s) ∧
    (∀ s, check_semgrep s = pass_gate s "Semgrep" "No critical issues found") ∧
    (∀ s, check_codeql s = pass_gate s "CodeQL" "No critical issues found") ∧
    (∀ s, check_sonarcloud s = pass_gate s "SonarCloud" "Quality gate passed") ∧
    (∀ s, check_snyk s = pass_gate s "Snyk" "No critical vulnerabilities found") ∧
    (∀ s, check_osv_scanner s =
      pass_gate s "OSV Scanner" "No critical vulnerabilities found") ∧
    (∀ s, check_trivy s =
      pass_gate s "Trivy" "No critical container vulnerabilities found") ∧
    (∀ s, check_grype s =
      pass_gate s "Grype" "No critical container vulnerabilities found") ∧
    (∀ s, check_checkov s = pass_gate s "Checkov" "No critical IaC issues found") ∧
    (∀ s, check_kics s = pass_gate s "KICS" "No critical IaC issues found") ∧
    (∀ s, check_hadolint s =
      pass_gate s "Hadolint" "No critical Dockerfile issues found") ∧
    (∀ s, check_trufflehog s = pass_gate s "TruffleHog" "No verified secrets found") := by
  refine ⟨?_, ?_, fun s => rfl, fun s => rfl, fun s => rfl, fun s => rfl, fun s => rfl,
    fun s => rfl, fun s => rfl, fun s => rfl, fun s => rfl, fun s => rfl, fun s => rfl⟩
  · intro cfg inp s h
    unfold check_eslint_security
    rw [h]
  · intro cfg inp s h
    unfold check_npm_audit
    rw [h]

/-- C7 witness: the skip branches at a concrete empty input set. -/
theorem C7_absent_results_amended_witness :
    check_eslint_security {} {} initResults = initResults ∧
    check_npm_audit {} {} initResults = initResults :=
  ⟨C7_absent_results_amended.1 {} {} initResults rfl,
    C7_absent_results_amended.2.1 {} {} initResults rfl⟩

/-! ## Claim theorems about the compose scanner -/

/-- C1 counterexample: a service with `privileged: true`, no `user`, and
`cap_add: [SYS_ADMIN]` and no other keys at all also triggers the
absence-as-violation `root_filesystem_writable` rule (missing
`read_only`), so the scanner emits 4 findings, not the 3 the claim
lists. -/
theorem C1_counterexample :
    (scan_service "docker-compose.yml" "app"
        { privileged := true, cap_add := ["SYS_ADMIN"] }).map Finding.rule =
      ["privileged_containers", "root_filesystem_writable",
        "no_user_specified", "insecure_capabilities"] ∧
    (scan_service "docker-compose.yml" "app"
        { privileged := true, cap_add := ["SYS_ADMIN"] }).length = 4 ∧
    (scan_service "docker-compose.yml" "app"
        { privileged := true, cap_add := ["SYS_ADMIN"] }).map Finding.rule ≠
      ["privileged_containers", "no_user_specified", "insecure_capabilities"] := by
  refine ⟨by decide, by decide, by decide⟩

/-- C1 amended: a service with `privileged: true`, no truthy `user`,
`cap_add: [SYS_ADMIN]`, no truthy `read_only`, and nothing else that
triggers a rule yields exactly 4 findings:
`privileged_containers` (critical), `root_filesystem_writable` (medium),
`no_user_specified` (medium), `insecure_capabilities` (high). -/
theorem C1_privileged_service_amended (fp svc : String) (c : ServiceConfig)
    (hp : c.privileged = true)
    (hu : userTruthy c.user = false)
    (hcap : c.cap_add = ["SYS_ADMIN"])
    (hro : c.read_only = false)
    (hn : c.network_mode ≠ some "host")
    (hpid : c.pid ≠ some "host")
    (hipc : c.ipc ≠ some "host")
    (hv : scanVolumes fp svc c.volumes = [])
    (hpo : scanPorts fp svc c.ports = [])
    (he : scanEnv fp svc (envVars c.environment) = []) :
    (scan_service fp svc c).map Finding.rule =
      ["privileged_containers", "root_filesystem_writable",
        "no_user_specified", "insecure_capabilities"] ∧
    (scan_service fp svc c).map Finding.severity =
      ["critical", "medium", "medium", "high"] := by
  unfold scan_service
  rw [hp, hu, hcap, hro, hv, hpo, he]
  simp only [if_neg hn, if_neg hpid, if_neg hipc]
  exact ⟨rfl, rfl⟩

/-- C1 witness: the amended statement at a concrete service. -/
theorem C1_privileged_service_amended_witness :
    ({ privileged := true, cap_add := ["SYS_ADMIN"] } : ServiceConfig).privileged = true ∧
    userTruthy ({ privileged := true, cap_add := ["SYS_ADMIN"] } : ServiceConfig).user = false ∧
    ({ privileged := true, cap_add := ["SYS_ADMIN"] } : ServiceConfig).read_only = false ∧
    ((scan_service "compose.yml" "web"
        { privileged := true, cap_add := ["SYS_ADMIN"] }).map Finding.rule =
      ["privileged_containers", "root_filesystem_writable",
        "no_user_specified", "insecure_capabilities"] ∧
    (scan_service "compose.yml" "web"
        { privileged := true, cap_add := ["SYS_ADMIN"] }).map Finding.severity =
      ["critical", "medium", "medium", "high"]) :=
  ⟨rfl, rfl, rfl,
    C1_privileged_service_amended "compose.yml" "web"
      { privileged := true, cap_add := ["SYS_ADMIN"] }
      rfl rfl rfl rfl (by decide) (by decide) (by decide) rfl rfl rfl⟩

/-- C5: an environment entry whose lower-cased text contains both a
sensitive keyword and a weak-value keyword produces exactly one finding,
classified `default_secrets`; `insecure_environment` is never also
emitted for that entry. -/
theorem C5_default_secrets_precedence (fp svc e : String)
    (hs : sensitive_patterns.any (fun p => strContains (strLower e) p) = true)
    (hw : weak_values.any (fun w => strContains (strLower e) w) = true) :
    scanEnvVar fp svc e = [add_issue fp svc "default_secrets"] ∧
    (scanEnvVar fp svc e).length = 1 ∧
    (scanEnvVar fp svc e).map Finding.rule = ["default_secrets"] ∧
    "insecure_environment" ∉ (scanEnvVar fp svc e).map Finding.rule := by
  have h1 : scanEnvVar fp svc e = [add_issue fp svc "default_secrets"] := by
    unfold scanEnvVar
    simp [hs, hw]
  refine ⟨h1, by rw [h1]; rfl, by rw [h1]; rfl, ?_⟩
  rw [h1]
  simp [add_issue]

/-- C5 witness: the entry `PASSWORD=admin123` matches a sensitive and a
weak keyword and yields the single `default_secrets` finding. -/
theorem C5_default_secrets_precedence_witness :
    sensitive_patterns.any
      (fun p => strContains (strLower "PASSWORD=admin123") p) = true ∧
    weak_values.any (fun w => strContains (strLower "PASSWORD=admin123") w) = true ∧
    (scanEnvVar "compose.yml" "db" "PASSWORD=admin123" =
      [add_issue "compose.yml" "db" "default_secrets"] ∧
    (scanEnvVar "compose.yml" "db" "PASSWORD=admin123").length = 1 ∧
    (scanEnvVar "compose.yml" "db" "PASSWORD=admin123").map Finding.rule =
      ["default_secrets"] ∧
    "insecure_environment" ∉
      (scanEnvVar "compose.yml" "db" "PASSWORD=admin123").map Finding.rule) :=
  ⟨by decide, by decide,
    C5_default_secrets_precedence "compose.yml" "db" "PASSWORD=admin123"
      (by decide) (by decide)⟩

/-- C8: a document whose parse raises yields exactly one synthetic
finding with rule `parse_error`, severity `high`, scoped to the whole
file (`N/A`), and the batch scan continues with the remaining inputs, in
both the compose scanner and the workflow scanner. -/
theorem C8_parse_error_local (fp msg : String)
    (rest : List (String × ComposeParse))
    (wrest : List (String × WorkflowParse)) :
    scan_compose_file fp (ComposeParse.err msg) = [composeParseErrorFinding fp msg] ∧
    (composeParseErrorFinding fp msg).rule = "parse_error" ∧
    (composeParseErrorFinding fp msg).severity = "high" ∧
    (composeParseErrorFinding fp msg).service = "N/A" ∧
    scan_compose_files ((fp, ComposeParse.err msg) :: rest) =
      composeParseErrorFinding fp msg :: scan_compose_files rest ∧
    scan_workflow_file fp (WorkflowParse.err msg) = [wfParseErrorFinding fp msg] ∧
    (wfParseErrorFinding fp msg).rule = "parse_error" ∧
    (wfParseErrorFinding fp msg).severity = "high" ∧
    (wfParseErrorFinding fp msg).job = "N/A" ∧
    scan_workflow_files ((fp, WorkflowParse.err msg) :: wrest) =
      wfParseErrorFinding fp msg :: scan_workflow_files wrest :=
  ⟨rfl, rfl, rfl, rfl, rfl, rfl, rfl, rfl, rfl, rfl⟩

/-! ## Helper lemmas about the workflow scanner -/

theorem string_eq_empty_of_toList_nil (s : String) (h : s.toList = []) : s = "" := by
  cases s with
  | mk data =>
    simp [String.toList] at h
    subst h
    rfl

theorem pinCheck_ok (fp jn sn uses : String) (h : splitSecond '@' uses ≠ "") :
    pinCheck fp jn sn uses = .ok (
      if ((splitSecond '@' uses).length = 40 ∧
            (strLower (splitSecond '@' uses)).toList.all
              (fun c => isHexDigitChar c) = true)
          ∨ strStartsWith (splitSecond '@' uses) "v" = true
          ∨ firstIsDigit (splitSecond '@' uses) = true
      then []
      else [wf_add_issue fp jn sn "third_party_action_no_pin"]) := by
  unfold pinCheck
  dsimp only
  by_cases hA : (decide ((splitSecond '@' uses).length = 40) &&
      (strLower (splitSecond '@' uses)).toList.all (fun c => isHexDigitChar c)) = true
  · have hA' : (splitSecond '@' uses).length = 40 ∧
        (strLower (splitSecond '@' uses)).toList.all
          (fun c => isHexDigitChar c) = true := by
      simpa using hA
    rw [if_pos hA, if_pos (Or.inl hA')]
  · rw [if_neg hA]
    by_cases hV : strStartsWith (splitSecond '@' uses) "v" = true
    · rw [if_pos hV, if_pos (Or.inr (Or.inl hV))]
    · rw [if_neg hV]
      cases hl : (splitSecond '@' uses).toList with
      | nil => exact absurd (string_eq_empty_of_toList_nil _ hl) h
      | cons c cs =>
        dsimp only
        have hfd : firstIsDigit (splitSecond '@' uses) = c.isDigit := by
          unfold firstIsDigit
          rw [hl]
        by_cases hd : c.isDigit = true
        · rw [if_pos hd, if_pos (Or.inr (Or.inr (hfd.trans hd)))]
        · rw [if_neg hd, if_neg]
          intro hor
          rcases hor with h1 | h2 | h3
          · exact hA (by simpa using h1)
          · exact hV h2
          · rw [hfd] at h3
            exact hd h3

theorem no_pin_not_in_scanStepEnv (fp jn sn : String)
    (l : List (String × StepEnvVal)) :
    "third_party_action_no_pin" ∉ (scanStepEnv fp jn sn l).map WfFinding.rule := by
  induction l with
  | nil => simp [scanStepEnv]
  | cons kv rest ih =>
    obtain ⟨k, v⟩ := kv
    cases v with
    | str sv =>
      unfold scanStepEnv
      split_ifs <;> simp_all [wf_add_issue]
    | other => simpa [scanStepEnv] using ih

/-! ## Claim theorems about the workflow scanner -/

/-- C10: an external `uses` reference ending in `@` has an empty version
suffix; the pin check indexes its first character and raises, and the
file-level handler reports the whole file as one `parse_error` finding of
severity high while findings already appended for earlier scopes of the
same file remain in the issue list. -/
theorem C10_empty_version_suffix_raises :
    splitSecond '@' "actions/checkout@" = "" ∧
    scan_step "ci.yml" "build" 1 { uses := "actions/checkout@" } =
      .error "string index out of range" ∧
    scan_workflow_file "ci.yml" (WorkflowParse.ok
      { on_keys := ["pull_request_target"],
        jobs := [("build",
          { steps := [{ uses := "actions/checkout@main" },
                      { uses := "actions/checkout@" }] })] }) =
      [wf_add_issue "ci.yml" "trigger" "pull_request_target"
          "pull_request_target_checkout",
        wf_add_issue "ci.yml" "build" "step-0" "third_party_action_no_pin",
        wfParseErrorFinding "ci.yml" "string index out of range"] ∧
    (wfParseErrorFinding "ci.yml" "string index out of range").severity = "high" ∧
    (wfParseErrorFinding "ci.yml" "string index out of range").job = "N/A" :=
  ⟨rfl, rfl, rfl, rfl, rfl⟩

/-- C4 counterexample: the version suffix of
`actions/checkout@AAAAAAAAAAAAAAAAAAAAAAAAAAAAAAAAAAAAAAAA` is a
40-character string of uppercase hex characters: it is not a
40-character lowercase hex string and begins with neither `v` nor a
digit, so the claim says the step is flagged, yet the scanner lower-cases
the suffix before the hex test and emits no finding. -/
theorem C4_counterexample :
    splitSecond '@' "actions/checkout@AAAAAAAAAAAAAAAAAAAAAAAAAAAAAAAAAAAAAAAA" =
      "AAAAAAAAAAAAAAAAAAAAAAAAAAAAAAAAAAAAAAAA" ∧
    ¬(("AAAAAAAAAAAAAAAAAAAAAAAAAAAAAAAAAAAAAAAA" : String).length = 40 ∧
      ("AAAAAAAAAAAAAAAAAAAAAAAAAAAAAAAAAAAAAAAA" : String).toList.all
        (fun c => isHexDigitChar c) = true) ∧
    strStartsWith "AAAAAAAAAAAAAAAAAAAAAAAAAAAAAAAAAAAAAAAA" "v" = false ∧
    firstIsDigit "AAAAAAAAAAAAAAAAAAAAAAAAAAAAAAAAAAAAAAAA" = false ∧
    scan_step "ci.yml" "build" 0
      { uses := "actions/checkout@AAAAAAAAAAAAAAAAAAAAAAAAAAAAAAAAAAAAAAAA" } =
      .ok [] := by
  refine ⟨by decide, by decide, by decide, by decide, rfl⟩

/-- C4 amended: for an external `uses` reference containing `@` with a
nonempty version suffix, the step is flagged `third_party_action_no_pin`
exactly when the suffix is neither a 40-character hex string (compared
after lower-casing, so letter case does not matter) nor begins with `v`
or a digit; `actions/checkout@v4` is not flagged and
`actions/checkout@main` is flagged.  (An empty suffix raises instead,
see the parse-error behaviour.) -/
theorem C4_version_pin_amended :
    (∀ (fp job_name : String) (idx : Nat) (step : StepConfig),
      step.uses.isEmpty = false →
      strStartsWith step.uses "./" = false →
      strStartsWith step.uses "docker://" = false →
      strContains step.uses "@" = true →
      splitSecond '@' step.uses ≠ "" →
      ∃ fs, scan_step fp job_name idx step = .ok fs ∧
        ("third_party_action_no_pin" ∈ fs.map WfFinding.rule ↔
          (¬((splitSecond '@' step.uses).length = 40 ∧
              (strLower (splitSecond '@' step.uses)).toList.all
                (fun c => isHexDigitChar c) = true) ∧
            strStartsWith (splitSecond '@' step.uses) "v" = false ∧
            firstIsDigit (splitSecond '@' step.uses) = false))) ∧
    scan_step "wf.yml" "job" 0 { uses := "actions/checkout@v4" } = .ok [] ∧
    scan_step "wf.yml" "job" 0 { uses := "actions/checkout@main" } =
      .ok [wf_add_issue "wf.yml" "job" "step-0" "third_party_action_no_pin"] := by
  refine ⟨?_, rfl, rfl⟩
  intro fp job_name idx step h1 h2 h3 h4 h5
  unfold scan_step
  dsimp only
  rw [h1, h2, h3, h4]
  simp only [Bool.not_false, Bool.and_self, Bool.true_and, Bool.and_true, if_true, ite_true]
  rw [pinCheck_ok fp job_name (step.name.getD ("step-" ++ toString idx)) step.uses h5]
  dsimp only [Bind.bind, Except.bind, Pure.pure, Except.pure]
  refine ⟨_, rfl, ?_⟩
  simp only [List.map_append, List.mem_append]
  constructor
  · intro hmem
    rcases hmem with ((((hp | hi) | he) | ha) | hc)
    · by_cases hcond : ((splitSecond '@' step.uses).length = 40 ∧
          (strLower (splitSecond '@' step.uses)).toList.all
            (fun c => isHexDigitChar c) = true)
          ∨ strStartsWith (splitSecond '@' step.uses) "v" = true
          ∨ firstIsDigit (splitSecond '@' step.uses) = true
      · rw [if_pos hcond] at hp
        simp at hp
      · simp only [not_or] at hcond
        obtain ⟨hx, hy, hz⟩ := hcond
        exact ⟨hx, by simpa using hy, by simpa using hz⟩
    · revert hi
      split_ifs <;> simp [wf_add_issue]
    · exact absurd he (no_pin_not_in_scanStepEnv _ _ _ _)
    · revert ha
      split_ifs <;> simp [wf_add_issue]
    · revert hc
      split_ifs <;> simp [wf_add_issue]
  · rintro ⟨hx, hy, hz⟩
    left
    left
    left
    left
    rw [if_neg]
    · simp [wf_add_issue]
    · rintro (hcc | hcc | hcc)
      · exact hx hcc
      · rw [hy] at hcc
        cases hcc
      · rw [hz] at hcc
        cases hcc

/-- C4 witness: the amended biconditional at `actions/checkout@main`,
whose suffix `main` is not hex of length 40 and begins with neither `v`
nor a digit, hence is flagged. -/
theorem C4_version_pin_amended_witness :
    (∃ fs, scan_step "ci2.yml" "test" 0 { uses := "actions/checkout@main" } = .ok fs ∧
      ("third_party_action_no_pin" ∈ fs.map WfFinding.rule ↔
        (¬((splitSecond '@'
              ({ uses := "actions/checkout@main" } : StepConfig).uses).length = 40 ∧
            (strLower (splitSecond '@'
                ({ uses := "actions/checkout@main" } : StepConfig).uses)).toList.all
              (fun c => isHexDigitChar c) = true) ∧
          strStartsWith (splitSecond '@'
            ({ uses := "actions/checkout@main" } : StepConfig).uses) "v" = false ∧
          firstIsDigit (splitSecond '@'
            ({ uses := "actions/checkout@main" } : StepConfig).uses) = false))) :=
  C4_version_pin_amended.1 "ci2.yml" "test" 0 { uses := "actions/checkout@main" }
    (by decide) (by decide) (by decide) (by decide) (by decide)

/-! ## Claim theorems about the adapter severity mappings -/

/-- C6 counterexample: an upstream severity string outside the mapping
tables is mapped to `medium` by the OSV and Checkov adapters and to
`Unknown` by the Nuclei adapter — not to `info` as the claim states. -/
theorem C6_counterexample :
    map_osv_severity "wontfix" = "medium" ∧
    map_checkov_severity "wontfix" = "medium" ∧
    map_nuclei_severity "wontfix" = "Unknown" ∧
    ("medium" : String) ≠ "info" ∧ ("Unknown" : String) ≠ "info" := by
  refine ⟨by decide, by decide, by decide, by decide, by decide⟩

/-- C6 amended: each adapter maps severities through a total mapping and
never drops a record, but the defaults for unmapped values are `medium`
(OSV, Checkov) and `Unknown` (Nuclei), not `info`; an `Unknown` risk is
counted under `info` by the DAST summary counter. -/
theorem C6_severity_default_amended :
    (∀ sev : String, strUpper sev ∉ ["CRITICAL", "HIGH", "MODERATE", "LOW"] →
      map_osv_severity sev = "medium") ∧
    (∀ sev : String,
      strUpper sev ∉ ["CRITICAL", "HIGH", "MEDIUM", "LOW", "INFO"] →
      map_checkov_severity sev = "medium") ∧
    (∀ sev : String, strLower sev ∉ ["critical", "high", "medium", "low", "info"] →
      map_nuclei_severity sev = "Unknown") ∧
    (∀ d : DastSummary, dast_update_summary d "Unknown" =
      { d with info := d.info + 1, total := d.total + 1 }) := by
  refine ⟨?_, ?_, ?_, fun d => rfl⟩
  · intro sev h
    simp only [List.mem_cons, List.mem_singleton, not_or] at h
    obtain ⟨hc, hh, hm, hl⟩ := h
    unfold map_osv_severity
    dsimp only
    split_ifs <;> simp_all
  · intro sev h
    simp only [List.mem_cons, List.mem_singleton, not_or] at h
    obtain ⟨hc, hh, hm, hl, hi⟩ := h
    unfold map_checkov_severity
    dsimp only
    split_ifs <;> simp_all
  · intro sev h
    simp only [List.mem_cons, List.mem_singleton, not_or] at h
    obtain ⟨hc, hh, hm, hl, hi⟩ := h
    unfold map_nuclei_severity
    dsimp only
    split_ifs <;> simp_all

/-- C6 witness: the amended defaults at the concrete unmapped severity
string `negligible`. -/
theorem C6_severity_default_amended_witness :
    strUpper "negligible" ∉ ["CRITICAL", "HIGH", "MODERATE", "LOW"] ∧
    strUpper "negligible" ∉ ["CRITICAL", "HIGH", "MEDIUM", "LOW", "INFO"] ∧
    strLower "negligible" ∉ ["critical", "high", "medium", "low", "info"] ∧
    map_osv_severity "negligible" = "medium" ∧
    map_checkov_severity "negligible" = "medium" ∧
    map_nuclei_severity "negligible" = "Unknown" ∧
    dast_update_summary {} "Unknown" = { info := 1, total := 1 } :=
  ⟨by decide, by decide, by decide,
    C6_severity_default_amended.1 "negligible" (by decide),
    C6_severity_default_amended.2.1 "negligible" (by decide),
    C6_severity_default_amended.2.2.1 "negligible" (by decide),
    C6_severity_default_amended.2.2.2 {}⟩

end SecScan
